import Mathlib

/-!
Verification of the axfs_crates documentation-index fragments.

The repository slice consists of two rustdoc-generated implementor-listing
scripts:

* `src/trait.impl/axfs_vfs/trait.VfsOps.js`
* `src/unnamed/part_000` (a `trait.Default.js`-shaped listing)

Each script is an immediately-invoked function that builds an `implementors`
object from a literal entry array via `Object.fromEntries` and either passes
it to `window.register_implementors` (when that property is truthy) or stores
it in `window.pending_implementors`.  A trailing `//{...}` comment records the
byte offset of the first data fragment and the lengths of the serialized
per-crate fragments.

This file embeds both scripts: the exact text (as lists of lines), the entry
data they carry, the `Object.fromEntries` construction, the window-interaction
semantics of the IIFE body, and the serialization layout that the trailing
metadata comment describes.
-/

/-- The raw text of `src/trait.impl/axfs_vfs/trait.VfsOps.js`, line by line.
The file has no trailing newline after the final metadata comment line. -/
def vfsOpsFileLines : List String :=
  ["(function() \x7b",
   "    const implementors = Object.fromEntries([[\"axfs_devfs\",[[\"impl <a class=\\\"trait\\\" href=\\\"axfs_vfs/trait.VfsOps.html\\\" title=\\\"trait axfs_vfs::VfsOps\\\">VfsOps</a> for <a class=\\\"struct\\\" href=\\\"axfs_devfs/struct.DeviceFileSystem.html\\\" title=\\\"struct axfs_devfs::DeviceFileSystem\\\">DeviceFileSystem</a>\",0]]],[\"axfs_ramfs\",[[\"impl <a class=\\\"trait\\\" href=\\\"axfs_vfs/trait.VfsOps.html\\\" title=\\\"trait axfs_vfs::VfsOps\\\">VfsOps</a> for <a class=\\\"struct\\\" href=\\\"axfs_ramfs/struct.RamFileSystem.html\\\" title=\\\"struct axfs_ramfs::RamFileSystem\\\">RamFileSystem</a>\",0]]]]);",
   "    if (window.register_implementors) \x7b",
   "        window.register_implementors(implementors);",
   "    \x7d else \x7b",
   "        window.pending_implementors = implementors;",
   "    \x7d",
   "\x7d)()",
   "//\x7b\"start\":59,\"fragment_lengths\":[266,258]\x7d"]

/-- The raw text of `src/unnamed/part_000`, line by line (the script text;
like the other file it ends at the metadata comment, with no trailing
newline). -/
def part000FileLines : List String :=
  ["(function() \x7b",
   "    const implementors = Object.fromEntries([[\"axfs_devfs\",[[\"impl <a class=\\\"trait\\\" href=\\\"https://doc.rust-lang.org/nightly/core/default/trait.Default.html\\\" title=\\\"trait core::default::Default\\\">Default</a> for <a class=\\\"struct\\\" href=\\\"axfs_devfs/struct.DeviceFileSystem.html\\\" title=\\\"struct axfs_devfs::DeviceFileSystem\\\">DeviceFileSystem</a>\",0],[\"impl <a class=\\\"trait\\\" href=\\\"https://doc.rust-lang.org/nightly/core/default/trait.Default.html\\\" title=\\\"trait core::default::Default\\\">Default</a> for <a class=\\\"struct\\\" href=\\\"axfs_devfs/struct.UrandomDev.html\\\" title=\\\"struct axfs_devfs::UrandomDev\\\">UrandomDev</a>\",0]]],[\"axfs_ramfs\",[[\"impl <a class=\\\"trait\\\" href=\\\"https://doc.rust-lang.org/nightly/core/default/trait.Default.html\\\" title=\\\"trait core::default::Default\\\">Default</a> for <a class=\\\"struct\\\" href=\\\"axfs_ramfs/struct.RamFileSystem.html\\\" title=\\\"struct axfs_ramfs::RamFileSystem\\\">RamFileSystem</a>\",0]]]]);",
   "    if (window.register_implementors) \x7b",
   "        window.register_implementors(implementors);",
   "    \x7d else \x7b",
   "        window.pending_implementors = implementors;",
   "    \x7d",
   "\x7d)()",
   "//\x7b\"start\":59,\"fragment_lengths\":[590,304]\x7d"]

/-- One crate's entry in the literal array passed to `Object.fromEntries`:
the crate key paired with the list of `[HTML snippet, numeric flag]` pairs. -/
abbrev CrateEntry := String × List (String × Int)

/-- The literal entry list of `trait.VfsOps.js` (the string values of the JS
string literals, i.e. with the `\"` escapes resolved to `"`). -/
def vfsOps_entries : List CrateEntry :=
  [("axfs_devfs",
    [("impl <a class=\"trait\" href=\"axfs_vfs/trait.VfsOps.html\" title=\"trait axfs_vfs::VfsOps\">VfsOps</a> for <a class=\"struct\" href=\"axfs_devfs/struct.DeviceFileSystem.html\" title=\"struct axfs_devfs::DeviceFileSystem\">DeviceFileSystem</a>", 0)]),
   ("axfs_ramfs",
    [("impl <a class=\"trait\" href=\"axfs_vfs/trait.VfsOps.html\" title=\"trait axfs_vfs::VfsOps\">VfsOps</a> for <a class=\"struct\" href=\"axfs_ramfs/struct.RamFileSystem.html\" title=\"struct axfs_ramfs::RamFileSystem\">RamFileSystem</a>", 0)])]

/-- The literal entry list of `part_000` (string values with escapes
resolved). -/
def part000_entries : List CrateEntry :=
  [("axfs_devfs",
    [("impl <a class=\"trait\" href=\"https://doc.rust-lang.org/nightly/core/default/trait.Default.html\" title=\"trait core::default::Default\">Default</a> for <a class=\"struct\" href=\"axfs_devfs/struct.DeviceFileSystem.html\" title=\"struct axfs_devfs::DeviceFileSystem\">DeviceFileSystem</a>", 0),
     ("impl <a class=\"trait\" href=\"https://doc.rust-lang.org/nightly/core/default/trait.Default.html\" title=\"trait core::default::Default\">Default</a> for <a class=\"struct\" href=\"axfs_devfs/struct.UrandomDev.html\" title=\"struct axfs_devfs::UrandomDev\">UrandomDev</a>", 0)]),
   ("axfs_ramfs",
    [("impl <a class=\"trait\" href=\"https://doc.rust-lang.org/nightly/core/default/trait.Default.html\" title=\"trait core::default::Default\">Default</a> for <a class=\"struct\" href=\"axfs_ramfs/struct.RamFileSystem.html\" title=\"struct axfs_ramfs::RamFileSystem\">RamFileSystem</a>", 0)])]

/-- `Object.fromEntries` on a list of key/value pairs: a later pair with an
already-present key overwrites the stored value but keeps the key's original
position, exactly as JS property creation does. -/
def fromEntries (l : List CrateEntry) : List CrateEntry :=
  l.foldl
    (fun acc kv =>
      if acc.any (fun p => p.1 = kv.1) then
        acc.map (fun p => if p.1 = kv.1 then (p.1, kv.2) else p)
      else acc ++ [kv])
    []

/-- Escape one character for a JS double-quoted string literal (only the
quote and the backslash need escaping in these files). -/
def jsEscapeChar (c : Char) : List Char :=
  if c = '\"' then ['\\', '\"'] else if c = '\\' then ['\\', '\\'] else [c]

/-- Escape a string for inclusion in a JS double-quoted string literal. -/
def jsEscape (s : String) : String :=
  ⟨s.data.foldr (fun c acc => jsEscapeChar c ++ acc) []⟩

/-- Render a string as a JS double-quoted string literal. -/
def quoteJS (s : String) : String :=
  "\"" ++ jsEscape s ++ "\""

/-- Decimal digits of a natural number, most significant first (fuel-driven
so it reduces in the kernel). -/
def natDigits : Nat → Nat → List Char
  | 0, _ => []
  | f + 1, n => if n < 10 then [Nat.digitChar n]
                else natDigits f (n / 10) ++ [Nat.digitChar (n % 10)]

/-- Decimal rendering of a natural number. -/
def natToStr (n : Nat) : String :=
  ⟨natDigits (n + 1) n⟩

/-- Decimal rendering of an integer, as JS serializes the numeric flags. -/
def intToStr (i : Int) : String :=
  if i < 0 then "-" ++ natToStr i.natAbs else natToStr i.natAbs

/-- Serialize one `[HTML snippet, flag]` pair as it appears in the script
source text. -/
def serializePair (p : String × Int) : String :=
  "[" ++ quoteJS p.1 ++ "," ++ intToStr p.2 ++ "]"

/-- Serialize one crate entry `["crate",[[snippet,flag],...]]` as it appears
in the script source text. -/
def serializeEntry (e : CrateEntry) : String :=
  "[" ++ quoteJS e.1 ++ ",[" ++ String.intercalate "," (e.2.map serializePair) ++ "]]"

/-- The serialized per-crate fragments of a script, as rustdoc emits them:
every fragment after the first carries the separating comma. -/
def fragments : List CrateEntry → List String
  | [] => []
  | e :: rest => serializeEntry e :: rest.map (fun e2 => "," ++ serializeEntry e2)

/-- The character lengths of the serialized per-crate fragments. -/
def fragmentLengths (entries : List CrateEntry) : List Nat :=
  (fragments entries).map String.length

/-- The trailing metadata JSON object `{"start":...,"fragment_lengths":[...]}`. -/
def metaJson (start : Nat) (lens : List Nat) : String :=
  "//\x7b\"start\":" ++ natToStr start ++ ",\"fragment_lengths\":["
    ++ String.intercalate "," (lens.map natToStr) ++ "]\x7d"

/-- The line holding the `Object.fromEntries` call, rebuilt from an entry
list. -/
def entriesLine (entries : List CrateEntry) : String :=
  "    const implementors = Object.fromEntries(["
    ++ String.join (fragments entries) ++ "]);"

/-- The full nine-line script a rustdoc implementor listing consists of,
as a function of its entry data and its metadata-comment numbers: the
common IIFE scaffolding around the data line and the metadata line. -/
def scriptLines (entries : List CrateEntry) (start : Nat) (lens : List Nat) :
    List String :=
  ["(function() \x7b",
   entriesLine entries,
   "    if (window.register_implementors) \x7b",
   "        window.register_implementors(implementors);",
   "    \x7d else \x7b",
   "        window.pending_implementors = implementors;",
   "    \x7d",
   "\x7d)()",
   metaJson start lens]

/-- A file's raw content from its lines: the lines joined by single newline
characters (the files end without a trailing newline, so none is added). -/
def rawContent : List String → String
  | [] => ""
  | [l] => l
  | l :: l2 :: ls => l ++ "\n" ++ rawContent (l2 :: ls)

/-- Split a character list at every occurrence of a separator character. -/
def splitChar (sep : Char) : List Char → List (List Char)
  | [] => [[]]
  | c :: cs =>
    let r := splitChar sep cs
    if c = sep then [] :: r
    else match r with
         | h :: t => (c :: h) :: t
         | [] => [[c]]

/-- Number of text lines of a string (one more than the number of newline
characters; an unterminated final line still counts). -/
def countLines (s : String) : Nat :=
  (splitChar '\n' s.data).length

/-- A JS value, to the extent these scripts distinguish them. -/
inductive JSValue where
  | undefined
  | null
  | bool (b : Bool)
  | num (n : Int)
  | str (s : String)
  | fn (id : Nat)
  | implementorsObj (m : List CrateEntry)
deriving DecidableEq

/-- JS truthiness: `undefined`, `null`, `false`, `0` and `""` are falsy;
functions and objects are truthy. -/
def truthy : JSValue → Bool
  | .undefined => false
  | .null => false
  | .bool b => b
  | .num n => n != 0
  | .str s => s != ""
  | .fn _ => true
  | .implementorsObj _ => true

/-- The state of the `window` object: the two properties the scripts touch,
plus all the others. -/
structure Window where
  register_implementors : JSValue
  pending_implementors : JSValue
  other : String → JSValue

/-- One observable action of a script on `window`: reading a property,
writing a property, or calling a property as a function. -/
inductive Event where
  | read (prop : String)
  | write (prop : String) (v : JSValue)
  | call (prop : String) (arg : JSValue)
deriving DecidableEq

/-- Whether an event is a function call. -/
def Event.isCall : Event → Bool
  | .call _ _ => true
  | _ => false

/-- The body of either script's IIFE: build `implementors` via
`Object.fromEntries`, then either call `window.register_implementors` on it
(when that property is truthy) or assign it to
`window.pending_implementors`.  Returns the window as the script itself
leaves it together with the trace of its accesses; the effects of the
callee behind `register_implementors` are outside the script and not
modelled. -/
def runScript (entries : List CrateEntry) (w : Window) : Window × List Event :=
  let impl := JSValue.implementorsObj (fromEntries entries)
  if truthy w.register_implementors then
    (w, [Event.read "register_implementors",
         Event.call "register_implementors" impl])
  else
    ({ w with pending_implementors := impl },
     [Event.read "register_implementors",
      Event.write "pending_implementors" impl])

/-- A concrete window whose `register_implementors` slot holds a function,
with everything else undefined. -/
def registeredWindow : Window :=
  { register_implementors := JSValue.fn 0,
    pending_implementors := JSValue.undefined,
    other := fun _ => JSValue.undefined }

/-- A concrete window whose `register_implementors` slot holds the number 0:
the property is defined, but falsy. -/
def zeroRegisteredWindow : Window :=
  { register_implementors := JSValue.num 0,
    pending_implementors := JSValue.undefined,
    other := fun _ => JSValue.undefined }

/-- Whether `p` is a prefix of `s` (on the character lists, so it reduces in
the kernel). -/
def strHasPrefix (p s : String) : Bool :=
  p.data.isPrefixOf s.data

/-- Characters before the first occurrence of `pat` (everything when `pat`
does not occur). -/
def takeUntil (pat : List Char) : List Char → List Char
  | [] => []
  | c :: cs => if pat.isPrefixOf (c :: cs) then [] else c :: takeUntil pat cs

/-- Characters after the first occurrence of `pat` (empty when `pat` does
not occur). -/
def dropUntilIncl (pat : List Char) : List Char → List Char
  | [] => []
  | c :: cs =>
    if pat.isPrefixOf (c :: cs) then (c :: cs).drop pat.length
    else dropUntilIncl pat cs

/-- Whether the nonempty pattern `pat` occurs in the list. -/
def containsPat (pat : List Char) : List Char → Bool
  | [] => false
  | c :: cs => pat.isPrefixOf (c :: cs) || containsPat pat cs

/-- All `<a ...>text</a>` elements of an HTML fragment, as
(attribute text, element text) pairs; fuel-driven scan. -/
def anchorsFuel : Nat → List Char → List (String × String)
  | 0, _ => []
  | _ + 1, [] => []
  | f + 1, c :: cs =>
    if ['<', 'a', ' '].isPrefixOf (c :: cs) then
      let afterTag := cs.drop 2
      let attrs := afterTag.takeWhile (fun a => a ≠ '>')
      let body := (afterTag.dropWhile (fun a => a ≠ '>')).drop 1
      let text := takeUntil ['<', '/', 'a', '>'] body
      let rest := dropUntilIncl ['<', '/', 'a', '>'] body
      (⟨attrs⟩, ⟨text⟩) :: anchorsFuel f rest
    else anchorsFuel f cs

/-- All anchor elements of an HTML snippet. -/
def anchorsOf (s : String) : List (String × String) :=
  anchorsFuel s.data.length s.data

/-- Texts of the anchors marked `class="trait"`. -/
def traitAnchors (s : String) : List String :=
  ((anchorsOf s).filter (fun a => strHasPrefix "class=\"trait\"" a.1)).map
    (fun a => a.2)

/-- Texts of the anchors marked `class="struct"`. -/
def structAnchors (s : String) : List String :=
  ((anchorsOf s).filter (fun a => strHasPrefix "class=\"struct\"" a.1)).map
    (fun a => a.2)

/-- Parse a snippet of the shape
`impl <a class="trait" ...>T</a> for <a class="struct" ...>S</a>`:
the snippet must start with `impl `, split at ` for ` into a side holding
exactly one anchor, a trait anchor with text `T`, and a side holding exactly
one anchor, a struct anchor with text `S`.  Returns `(T, S)`. -/
def implShape (s : String) : Option (String × String) :=
  if strHasPrefix "impl " s then
    let body : List Char := s.data.drop 5
    if containsPat " for ".data body then
      let th : String := ⟨takeUntil " for ".data body⟩
      let sh : String := ⟨dropUntilIncl " for ".data body⟩
      if (anchorsOf th).length = 1 && (anchorsOf sh).length = 1 then
        match traitAnchors th, structAnchors th,
              traitAnchors sh, structAnchors sh with
        | [t], [], [], [st] => some (t, st)
        | _, _, _, _ => none
      else none
    else none
  else none

/-- All HTML snippets carried by an entry list, in order. -/
def allSnippets (entries : List CrateEntry) : List String :=
  entries.flatMap (fun e => e.2.map (fun p => p.1))

/-- The implementors a script registers for trait `t`: every
(crate key, struct name) pair whose snippet declares `impl t for struct`. -/
def implsOfTrait (t : String) (entries : List CrateEntry) :
    List (String × String) :=
  entries.flatMap (fun e =>
    e.2.filterMap (fun p =>
      match implShape p.1 with
      | some (tr, st) => if tr = t then some (e.1, st) else none
      | none => none))

/-- Every trait or struct name occurring in the implementor entries of the
two supplied files, in order of appearance (with repetitions). -/
def allSymbolNames : List String :=
  (allSnippets vfsOps_entries ++ allSnippets part000_entries).flatMap
    (fun s => traitAnchors s ++ structAnchors s)

set_option maxRecDepth 100000

/-- Splitting never produces the empty list of pieces. -/
theorem splitChar_ne_nil (sep : Char) (l : List Char) : splitChar sep l ≠ [] := by
  cases l with
  | nil => simp [splitChar]
  | cons c cs =>
    simp only [splitChar]
    by_cases h : c = sep
    · simp [h]
    · simp only [h, if_false]
      cases splitChar sep cs <;> simp

/-- Splitting at a leading separator prepends an empty piece. -/
theorem splitChar_cons_sep (sep : Char) (xs : List Char) :
    splitChar sep (sep :: xs) = [] :: splitChar sep xs := by
  simp [splitChar]

/-- A leading non-separator character does not change the piece count. -/
theorem splitChar_cons_ne (sep c : Char) (xs : List Char) (h : ¬ c = sep) :
    (splitChar sep (c :: xs)).length = (splitChar sep xs).length := by
  simp only [splitChar, h, if_false]
  cases e : splitChar sep xs with
  | nil => exact absurd e (splitChar_ne_nil sep xs)
  | cons a as => simp

/-- Piece counts add up over list concatenation (the last piece of the left
part merges with the first piece of the right part). -/
theorem splitChar_append_length (sep : Char) (l1 l2 : List Char) :
    (splitChar sep (l1 ++ l2)).length =
      (splitChar sep l1).length + (splitChar sep l2).length - 1 := by
  induction l1 with
  | nil =>
    have hl2 : 1 ≤ (splitChar sep l2).length :=
      List.length_pos.mpr (splitChar_ne_nil sep l2)
    simp only [List.nil_append, splitChar, List.length_cons, List.length_nil]
    omega
  | cons c cs ih =>
    by_cases h : c = sep
    · rw [List.cons_append, h, splitChar_cons_sep, splitChar_cons_sep]
      have hl2 : 1 ≤ (splitChar sep l2).length :=
        List.length_pos.mpr (splitChar_ne_nil sep l2)
      have hlcs : 1 ≤ (splitChar sep cs).length :=
        List.length_pos.mpr (splitChar_ne_nil sep cs)
      simp only [List.length_cons]
      omega
    · rw [List.cons_append, splitChar_cons_ne sep c (cs ++ l2) h,
        splitChar_cons_ne sep c cs h]
      exact ih

/-- A list without the separator is a single piece. -/
theorem splitChar_no_sep (sep : Char) (l : List Char) (h : sep ∉ l) :
    splitChar sep l = [l] := by
  induction l with
  | nil => rfl
  | cons c cs ih =>
    have hc : ¬ c = sep := fun e => h (e ▸ List.mem_cons_self c cs)
    have hcs : sep ∉ cs := fun m => h (List.mem_cons_of_mem _ m)
    simp only [splitChar, hc, if_false, ih hcs]

/-- Line counting is additive over string concatenation, up to the merged
boundary line. -/
theorem countLines_append (a b : String) :
    countLines (a ++ b) = countLines a + countLines b - 1 := by
  have hd : (a ++ b).data = a.data ++ b.data := rfl
  unfold countLines
  rw [hd, splitChar_append_length]

/-- A string without newline characters is a single line. -/
theorem countLines_no_newline (s : String) (h : '\n' ∉ s.data) :
    countLines s = 1 := by
  unfold countLines
  rw [splitChar_no_sep _ _ h]
  rfl

/-- The raw content of nonempty newline-free lines has exactly one text line
per list element. -/
theorem countLines_rawContent (lines : List String) (hne : lines ≠ [])
    (hnl : ∀ l ∈ lines, '\n' ∉ l.data) :
    countLines (rawContent lines) = lines.length := by
  induction lines with
  | nil => exact absurd rfl hne
  | cons l ls ih =>
    cases ls with
    | nil =>
      simp only [rawContent, List.length_cons, List.length_nil]
      exact countLines_no_newline l (hnl l (List.mem_cons_self l []))
    | cons l2 ls2 =>
      have hl : '\n' ∉ l.data := hnl l (List.mem_cons_self l _)
      have hrest : ∀ x ∈ l2 :: ls2, '\n' ∉ x.data :=
        fun x hx => hnl x (List.mem_cons_of_mem _ hx)
      have hR := ih (by simp) hrest
      have hcl : countLines l = 1 := countLines_no_newline l hl
      have hrec : 1 ≤ countLines (rawContent (l2 :: ls2)) := by
        unfold countLines
        exact List.length_pos.mpr (splitChar_ne_nil _ _)
      have h2 : countLines ("\n" : String) = 2 := by decide
      simp only [rawContent]
      rw [countLines_append (l ++ "\n") (rawContent (l2 :: ls2)),
        countLines_append l "\n", hcl, h2, hR]
      simp only [List.length_cons]
      omega

/-- C1: the VfsOps implementor listing registers exactly two implementors of
the VfsOps trait — the struct DeviceFileSystem under crate key "axfs_devfs"
and the struct RamFileSystem under crate key "axfs_ramfs" — and no snippet of
the other supplied file declares any struct as implementing VfsOps. -/
theorem vfsops_implementor_listing_exact :
    implsOfTrait "VfsOps" vfsOps_entries =
      [("axfs_devfs", "DeviceFileSystem"), ("axfs_ramfs", "RamFileSystem")] ∧
    implsOfTrait "VfsOps" part000_entries = [] := by
  decide

/-- C2: the listing in part_000 registers Default implementations for
DeviceFileSystem and RamFileSystem (so both filesystem instance types are
default-constructible) and additionally for UrandomDev. -/
theorem default_impls_registered :
    implsOfTrait "Default" part000_entries =
      [("axfs_devfs", "DeviceFileSystem"), ("axfs_devfs", "UrandomDev"),
       ("axfs_ramfs", "RamFileSystem")] ∧
    ("axfs_devfs", "DeviceFileSystem") ∈ implsOfTrait "Default" part000_entries ∧
    ("axfs_ramfs", "RamFileSystem") ∈ implsOfTrait "Default" part000_entries := by
  decide

/-- C3: in each script the constructed implementors object is keyed by crate
name — its keys are exactly "axfs_devfs" and "axfs_ramfs", each once (the
value under each key is a list of snippet/flag pairs by construction of
`CrateEntry`). -/
theorem implementors_object_keys :
    (fromEntries vfsOps_entries).map Prod.fst = ["axfs_devfs", "axfs_ramfs"] ∧
    (fromEntries part000_entries).map Prod.fst = ["axfs_devfs", "axfs_ramfs"] ∧
    ((fromEntries vfsOps_entries).map Prod.fst).Nodup ∧
    ((fromEntries part000_entries).map Prod.fst).Nodup := by
  decide

/-- C4: every snippet in both files parses as `impl TRAIT for STRUCT` with
exactly one trait anchor and exactly one struct anchor, and within one file
every snippet names the same trait (VfsOps in trait.VfsOps.js, Default in
part_000). -/
theorem snippets_impl_shape :
    (∀ s ∈ allSnippets vfsOps_entries,
      (implShape s).map Prod.fst = some "VfsOps" ∧
      (traitAnchors s).length = 1 ∧ (structAnchors s).length = 1) ∧
    (∀ s ∈ allSnippets part000_entries,
      (implShape s).map Prod.fst = some "Default" ∧
      (traitAnchors s).length = 1 ∧ (structAnchors s).length = 1) := by
  decide

/-- C5 counterexample: on a window whose register_implementors property is
defined but holds the number 0 (a falsy value), the script performs no call
at all and overwrites pending_implementors — against the claim that a
defined register_implementors is called once with pending_implementors left
unchanged. -/
theorem run_script_defined_falsy_counterexample :
    zeroRegisteredWindow.register_implementors ≠ JSValue.undefined ∧
    ((runScript vfsOps_entries zeroRegisteredWindow).2.all
      (fun e => !e.isCall)) = true ∧
    (runScript vfsOps_entries zeroRegisteredWindow).1.pending_implementors ≠
      zeroRegisteredWindow.pending_implementors := by
  decide

/-- C5 (amended): for every initial window state, the script reads only the
register_implementors property; when that property is truthy it is called
exactly once with the constructed implementors object and the whole window —
pending_implementors included — is left unchanged; otherwise (undefined or
any other falsy value) the object is assigned to pending_implementors and no
other property changes; and a call happens only when the property is truthy,
so an undefined register_implementors is never called. -/
theorem run_script_window_interaction (entries : List CrateEntry) (w : Window) :
    (∀ p, Event.read p ∈ (runScript entries w).2 → p = "register_implementors") ∧
    (truthy w.register_implementors = true →
      (runScript entries w).2 =
        [Event.read "register_implementors",
         Event.call "register_implementors"
           (JSValue.implementorsObj (fromEntries entries))] ∧
      (runScript entries w).1 = w) ∧
    (truthy w.register_implementors = false →
      (runScript entries w).2 =
        [Event.read "register_implementors",
         Event.write "pending_implementors"
           (JSValue.implementorsObj (fromEntries entries))] ∧
      (runScript entries w).1.pending_implementors =
        JSValue.implementorsObj (fromEntries entries) ∧
      (runScript entries w).1.register_implementors =
        w.register_implementors ∧
      (runScript entries w).1.other = w.other) ∧
    (∀ e ∈ (runScript entries w).2, e.isCall = true →
      truthy w.register_implementors = true ∧
      w.register_implementors ≠ JSValue.undefined) := by
  by_cases h : truthy w.register_implementors = true
  · have hr : runScript entries w =
        (w, [Event.read "register_implementors",
             Event.call "register_implementors"
               (JSValue.implementorsObj (fromEntries entries))]) := by
      simp [runScript, h]
    refine ⟨?_, ?_, ?_, ?_⟩
    · intro p hp
      rw [hr] at hp
      simp at hp
      exact hp
    · intro _
      rw [hr]
      exact ⟨rfl, rfl⟩
    · intro hf
      rw [hf] at h
      exact Bool.noConfusion h
    · intro e he hc
      refine ⟨h, fun hu => ?_⟩
      rw [hu] at h
      exact Bool.noConfusion h
  · have hb : truthy w.register_implementors = false := by
      cases hh : truthy w.register_implementors
      · rfl
      · exact absurd hh h
    have hr : runScript entries w =
        ({ w with pending_implementors :=
            JSValue.implementorsObj (fromEntries entries) },
         [Event.read "register_implementors",
          Event.write "pending_implementors"
            (JSValue.implementorsObj (fromEntries entries))]) := by
      simp [runScript, hb]
    refine ⟨?_, ?_, ?_, ?_⟩
    · intro p hp
      rw [hr] at hp
      simp at hp
      exact hp
    · intro ht
      exact absurd ht h
    · intro _
      rw [hr]
      exact ⟨rfl, rfl, rfl, rfl⟩
    · intro e he hc
      rw [hr] at he
      simp at he
      rcases he with he | he <;> rw [he] at hc <;>
        exact Bool.noConfusion hc

/-- C5 witness: on a concrete window whose register_implementors holds a
function, the script emits exactly the read and the single call and leaves
the window unchanged. -/
theorem run_script_window_interaction_witness :
    (runScript vfsOps_entries registeredWindow).2 =
      [Event.read "register_implementors",
       Event.call "register_implementors"
         (JSValue.implementorsObj (fromEntries vfsOps_entries))] ∧
    (runScript vfsOps_entries registeredWindow).1 = registeredWindow :=
  (run_script_window_interaction vfsOps_entries registeredWindow).2.1 rfl

/-- C6 counterexample: the trait name Default occurs in part_000's
implementor entries but is not among the four names the claim allows. -/
theorem symbol_names_default_counterexample :
    "Default" ∈ allSymbolNames ∧
    "Default" ∉ ["VfsOps", "DeviceFileSystem", "RamFileSystem", "UrandomDev"] := by
  decide

/-- C6 (amended): the trait and struct names occurring in the two files'
implementor entries are exactly the five names VfsOps, Default,
DeviceFileSystem, RamFileSystem and UrandomDev. -/
theorem symbol_names_exact :
    (∀ n ∈ allSymbolNames,
      n ∈ ["VfsOps", "Default", "DeviceFileSystem", "RamFileSystem",
           "UrandomDev"]) ∧
    (∀ n ∈ (["VfsOps", "Default", "DeviceFileSystem", "RamFileSystem",
             "UrandomDev"] : List String),
      n ∈ allSymbolNames) := by
  decide

/-- C7 counterexample: the line counts of the two source files do not sum
to 17. -/
theorem line_count_seventeen_counterexample :
    countLines (rawContent vfsOpsFileLines) +
      countLines (rawContent part000FileLines) ≠ 17 := by
  have h1 : countLines (rawContent vfsOpsFileLines) = 9 := by
    rw [countLines_rawContent vfsOpsFileLines (by simp [vfsOpsFileLines])
      (by decide)]
    decide
  have h2 : countLines (rawContent part000FileLines) = 9 := by
    rw [countLines_rawContent part000FileLines (by simp [part000FileLines])
      (by decide)]
    decide
  omega

/-- C7 (amended): each of the two source files has 9 lines, 18 in total;
the concatenation of their raw contents has 17 lines, because the first
file's unterminated last line joins the second file's first line. -/
theorem supplied_input_line_counts :
    countLines (rawContent vfsOpsFileLines) = 9 ∧
    countLines (rawContent part000FileLines) = 9 ∧
    countLines (rawContent vfsOpsFileLines) +
      countLines (rawContent part000FileLines) = 18 ∧
    countLines (rawContent vfsOpsFileLines ++ rawContent part000FileLines) = 17 := by
  have h1 : countLines (rawContent vfsOpsFileLines) = 9 := by
    rw [countLines_rawContent vfsOpsFileLines (by simp [vfsOpsFileLines])
      (by decide)]
    decide
  have h2 : countLines (rawContent part000FileLines) = 9 := by
    rw [countLines_rawContent part000FileLines (by simp [part000FileLines])
      (by decide)]
    decide
  have h3 := countLines_append (rawContent vfsOpsFileLines)
    (rawContent part000FileLines)
  refine ⟨h1, h2, by omega, by omega⟩

/-- C8: both supplied files are instances of the same generated nine-line
IIFE template — `scriptLines`, which serializes a literal entry list into an
`Object.fromEntries` call, registers or stores the result, and appends the
metadata comment — so they differ only in the entry data and the trailing
metadata numbers; in particular all scaffolding lines coincide. -/
theorem files_share_generated_form :
    vfsOpsFileLines = scriptLines vfsOps_entries 59 [266, 258] ∧
    part000FileLines = scriptLines part000_entries 59 [590, 304] ∧
    (∀ i ∈ ([0, 2, 3, 4, 5, 6, 7] : List Nat),
      vfsOpsFileLines.get? i = part000FileLines.get? i) := by
  decide

/-- C9: all five snippet/flag pairs across the two files carry the numeric
flag 0. -/
theorem entry_flags_all_zero :
    (vfsOps_entries ++ part000_entries).flatMap
      (fun e => e.2.map Prod.snd) = [0, 0, 0, 0, 0] := by
  decide

/-- C10: in each file the metadata comment's fragment_lengths array has one
element per crate key ([266, 258] and [590, 304] respectively), each a
positive integer equal to the character length of that crate's serialized
fragment; the fragments indeed tile the data line starting at offset 59 of
the raw content, and the literal metadata line matches the computed
lengths. -/
theorem fragment_lengths_match :
    fragmentLengths vfsOps_entries = [266, 258] ∧
    fragmentLengths part000_entries = [590, 304] ∧
    (fragments vfsOps_entries).length = vfsOps_entries.length ∧
    (fragments part000_entries).length = part000_entries.length ∧
    (∀ n ∈ fragmentLengths vfsOps_entries, 0 < n) ∧
    (∀ n ∈ fragmentLengths part000_entries, 0 < n) ∧
    vfsOpsFileLines.get? 1 = some (entriesLine vfsOps_entries) ∧
    part000FileLines.get? 1 = some (entriesLine part000_entries) ∧
    (((rawContent vfsOpsFileLines).data.drop 59).take (266 + 258) =
      (String.join (fragments vfsOps_entries)).data) ∧
    (((rawContent part000FileLines).data.drop 59).take (590 + 304) =
      (String.join (fragments part000_entries)).data) ∧
    vfsOpsFileLines.get? 8 = some (metaJson 59 (fragmentLengths vfsOps_entries)) ∧
    part000FileLines.get? 8 = some (metaJson 59 (fragmentLengths part000_entries)) := by
  decide

